import Mathlib

/-!
Verification of the message-collection core of this discord.js fork.

The embedding translates `MessageCollector` (src/unnamed/part_000) and
`RoleManager.fetch` (src/src/managers/RoleManager.js) into pure Lean
definitions.  The generic `Collector` base class (`./interfaces/Collector`)
is not part of the provided sources; where its behaviour is needed
(`stop`, `handleDispose`, `handleCollect`, the event registration of the
client), the definitions are modelled from the specification and marked as
such in their doc comments.

Conventions: JS `undefined` option values are `none`; a present numeric
option is `some n`, and JS truthiness of a number (`0` is falsy) is the
`truthyNat` test.  Snowflake identifiers are natural numbers.  The
insertion-ordered `collected` map is represented by its (unique) key list.
-/

namespace DiscordJS

/-- A snowflake identifier (Discord IDs; modelled as naturals). -/
abbrev Snowflake := Nat

/-- A guild, as seen by `_handleGuildDeletion`: only its `id` is consulted. -/
structure Guild where
  id : Snowflake
deriving DecidableEq, Repr

/-- A text-based channel: its `id`, and the id of its parent guild when it is a
guild channel.  `channel.guild?.id` is `undefined` for a DM channel, which
is modelled as `guildId = none`. -/
structure Channel where
  id : Snowflake
  guildId : Option Snowflake
deriving DecidableEq, Repr

/-- A message, as consulted by `collect`/`dispose`: its `id` and the id of
the channel it was sent in (`message.channel.id`). -/
structure Message where
  id : Snowflake
  channelId : Snowflake
deriving DecidableEq, Repr

/-- Options of a `MessageCollector`: `max` (maximum accepted count),
`maxProcessed` (maximum processed count) and the caller-supplied `filter`
predicate of the generic engine (default accepts everything).  `none`
means the option is absent (`undefined`). -/
structure CollectorOptions where
  max : Option Nat := none
  maxProcessed : Option Nat := none
  filter : Message → Bool := fun _ => true

/-- JS truthiness of an optional number: `undefined` and `0` are falsy. -/
def truthyNat : Option Nat → Bool
  | some n => n != 0
  | none => false

/-- State of a `MessageCollector` instance: the bound channel, the options,
the `received` counter (src line 36), the insertion-ordered key list of the
`collected` map, the `ended` flag of the generic engine and the terminal
reason it recorded (`endReasonStored`; named `endReason` in the data
model of the spec, stored by `stop` — that name is taken by the getter of the source). -/
structure MessageCollector where
  channel : Channel
  options : CollectorOptions
  received : Nat
  collected : List Snowflake
  ended : Bool
  endReasonStored : Option String

namespace MessageCollector

/-- Modelled from the spec: the `stop(reason)` of the generic engine —
idempotent: if already ended it is a no-op, otherwise it sets
`ended = true` and records the reason exactly once. -/
def stop (c : MessageCollector) (reason : String) : MessageCollector :=
  if c.ended then c
  else { c with ended := true, endReasonStored := some reason }

/-- src lines 67–76: `collect(message)` returns `null` unless the
channel id of the message equals the target channel id; on a match it increments
`received` and returns the message id.  The returned pair is
(return value, updated collector). -/
def collect (c : MessageCollector) (m : Message) : Option Snowflake × MessageCollector :=
  if m.channelId ≠ c.channel.id then (none, c)
  else (some m.id, { c with received := c.received + 1 })

/-- src lines 83–90: `dispose(message)` returns the message id when the
message belongs to the target channel, else `null`; it is side-effect
free (pure). -/
def dispose (c : MessageCollector) (m : Message) : Option Snowflake :=
  if m.channelId = c.channel.id then some m.id else none

/-- src lines 97–101: the `endReason` getter.
`if (this.options.max && this.collected.size >= this.options.max) return "limit";`
`if (this.options.maxProcessed && this.received === this.options.maxProcessed) return "processedLimit";`
`return null;` -/
def endReason (c : MessageCollector) : Option String :=
  if truthyNat c.options.max ∧ c.options.max.getD 0 ≤ c.collected.length then some "limit"
  else if truthyNat c.options.maxProcessed ∧ c.received = c.options.maxProcessed.getD 0 then
    some "processedLimit"
  else none

/-- Modelled from the spec: the `handleDispose(item)` of the generic engine —
after `ended` it is a no-op; otherwise it calls the
`dispose` of the specialization, and if that returns an identity present in `collected`, removes
that entry.  It never touches `received` and never by itself terminates. -/
def handleDispose (c : MessageCollector) (m : Message) : MessageCollector :=
  if c.ended then c
  else
    match dispose c m with
    | none => c
    | some i =>
      if i ∈ c.collected then { c with collected := c.collected.filter (fun j => j ≠ i) }
      else c

/-- Modelled from the spec: the `handleCollect(item)` of the generic engine —
calls the `collect` of the specialization; `null` means ignore entirely.  A
non-null identity on a not-yet-ended collector keeps the `received`
increment done by `collect`; if the caller-supplied filter accepts the
item it is inserted into `collected` and the `endReason` getter is then
evaluated, terminating with that reason when non-null. -/
def handleCollect (c : MessageCollector) (m : Message) : MessageCollector :=
  match collect c m with
  | (none, _) => c
  | (some i, c1) =>
    if c.ended then c
    else if c.options.filter m then
      let c2 := { c1 with collected := c1.collected ++ [i] }
      match endReason c2 with
      | some r => stop c2 r
      | none => c2
    else c1

/-- src lines 109–113: `_handleChannelDeletion(channel)` stops the
collector with reason `"channelDelete"` when the id of the deleted channel
equals the id of the target channel. -/
def handleChannelDeletion (c : MessageCollector) (ch : Channel) : MessageCollector :=
  if ch.id = c.channel.id then c.stop "channelDelete" else c

/-- src lines 121–125: `_handleGuildDeletion(guild)` stops the collector
with reason `"guildDelete"` when `guild.id === this.channel.guild?.id`;
for a channel with no parent guild the optional chain yields `undefined`
and the comparison is always false. -/
def handleGuildDeletion (c : MessageCollector) (g : Guild) : MessageCollector :=
  if c.channel.guildId = some g.id then c.stop "guildDelete" else c

/-- src lines 38–40: the `bulkDeleteListener` — one `handleDispose` call
per message of the delivered collection, in order. -/
def bulkDeleteListener (c : MessageCollector) (messages : List Message) : MessageCollector :=
  messages.foldl handleDispose c

end MessageCollector

/-- Names of the five client events the constructor subscribes to
(src lines 45–49; `Events.MESSAGE_CREATE` etc.). -/
inductive EventName where
  | messageCreate
  | messageDelete
  | messageBulkDelete
  | channelDelete
  | guildDelete
deriving DecidableEq, Repr

/-- A listener registered on the client bus, identified by the collector
instance that owns it and the event it handles (the source registers one
distinct bound function per event per instance). -/
structure Listener where
  instanceId : Nat
  event : EventName
deriving DecidableEq, Repr

/-- The shared client as the collector sees it: the listener registry
(a multiset, registration-ordered) and the max-listener budget. -/
structure ClientState where
  listeners : List Listener
  maxListeners : Nat
deriving DecidableEq, Repr

namespace ClientState

/-- `client.on(event, handler)` (Node alias of `addListener`; `on` is a
reserved token in Lean): appends a listener to the registry. -/
def addListener (cs : ClientState) (l : Listener) : ClientState :=
  { cs with listeners := cs.listeners ++ [l] }

/-- `client.removeListener(event, handler)`: removes the first matching
registration, if any. -/
def removeListener (cs : ClientState) (l : Listener) : ClientState :=
  { cs with listeners := cs.listeners.erase l }

/-- Modelled from the spec: `client.incrementMaxListeners()` — the
listener-count-budget adjustment around construction (a pooled-capacity
hint; its implementation lives outside the provided sources). -/
def incrementMaxListeners (cs : ClientState) : ClientState :=
  { cs with maxListeners := cs.maxListeners + 1 }

/-- Modelled from the spec: `client.decrementMaxListeners()` — the
matching budget decrement performed at teardown. -/
def decrementMaxListeners (cs : ClientState) : ClientState :=
  { cs with maxListeners := cs.maxListeners - 1 }

/-- src lines 44–49: the effect of the constructor on the client — one budget
increment followed by the five event registrations, in source order. -/
def registerListeners (cs : ClientState) (inst : Nat) : ClientState :=
  ((((cs.incrementMaxListeners.addListener ⟨inst, .messageCreate⟩).addListener
      ⟨inst, .messageDelete⟩).addListener
      ⟨inst, .messageBulkDelete⟩).addListener
      ⟨inst, .channelDelete⟩).addListener
      ⟨inst, .guildDelete⟩

/-- src lines 51–58: the one-shot `end` handler — removes the same five
listeners and decrements the budget once. -/
def teardownListeners (cs : ClientState) (inst : Nat) : ClientState :=
  (((((cs.removeListener ⟨inst, .messageCreate⟩).removeListener
      ⟨inst, .messageDelete⟩).removeListener
      ⟨inst, .messageBulkDelete⟩).removeListener
      ⟨inst, .channelDelete⟩).removeListener
      ⟨inst, .guildDelete⟩).decrementMaxListeners

end ClientState

/-- A role: only its snowflake `id` matters to `RoleManager.fetch`. -/
structure Role where
  id : Snowflake
deriving DecidableEq, Repr

/-- Result of `RoleManager.fetch`: a single role (`some`), `null` (`none`),
or the whole fetched collection (id → role, insertion-ordered). -/
inductive FetchResult where
  | one : Option Role → FetchResult
  | all : List (Snowflake × Role) → FetchResult
deriving DecidableEq, Repr

namespace RoleManager

/-- `Collection.get` on an association list (first binding wins). -/
def lookup (cache : List (Snowflake × Role)) (i : Snowflake) : Option Role :=
  (cache.find? (fun p => p.1 = i)).map Prod.snd

/-- The collection built from the raw API payload in `fetch`:
`for (const role of data) roles.set(role.id, this.add(role, cache))`.
(`add` returns the role object; its cache mutation does not affect the
value `fetch` returns and is not modelled.) -/
def rolesOf (data : List Role) : List (Snowflake × Role) :=
  data.map (fun r => (r.id, r))

/-- src/src/managers/RoleManager.js lines 50–61: `fetch(id, cache, force)`.
The second component records whether the API request was performed.
`if (id && !force) { const existing = this.cache.get(id); if (existing) return existing; }`
then fetches all roles and returns `id ? roles.get(id) || null : roles`. -/
def fetch (cache : List (Snowflake × Role)) (api : List Role) (id : Option Snowflake)
    (force : Bool) : FetchResult × Bool :=
  match id with
  | some i =>
    match (if force then none else lookup cache i) with
    | some existing => (FetchResult.one (some existing), false)
    | none => (FetchResult.one (lookup (rolesOf api) i), true)
  | none => (FetchResult.all (rolesOf api), true)

end RoleManager

/-! ## Concrete states used by the witnesses -/

/-- A guild channel with id 10 inside guild 100. -/
def chanC : Channel := { id := 10, guildId := some 100 }

/-- The limit-precedence scenario of the spec: `max = 2` and
`maxProcessed = 2` both configured, 2 accepted items, 2 processed items. -/
def precedenceState : MessageCollector :=
  { channel := chanC
    options := { max := some 2, maxProcessed := some 2 }
    received := 2
    collected := [1, 2]
    ended := false
    endReasonStored := none }

/-- A running collector with `maxProcessed = 3` set, no `max`, whose
`received` counter has skipped past the limit to 5. -/
def skippedState : MessageCollector :=
  { channel := chanC
    options := { maxProcessed := some 3 }
    received := 5
    collected := [1, 2]
    ended := false
    endReasonStored := none }

/-- A running collector with both limit options explicitly set to 0. -/
def zeroOptionsState : MessageCollector :=
  { channel := chanC
    options := { max := some 0, maxProcessed := some 0 }
    received := 0
    collected := []
    ended := false
    endReasonStored := none }

/-! ## C1, C2, C9: the `endReason` getter -/

/-- C1: for every collector state the `endReason` getter returns "limit"
exactly when a (truthy) `max` option is set and `collected.size ≥ max`;
only when that does not apply can it return "processedLimit" (for a truthy
`maxProcessed` with `received = maxProcessed`); it returns null exactly
when neither condition holds; and in the precedence scenario with
`max = 2`, `maxProcessed = 2`, two accepted and two processed items, it
returns "limit". -/
theorem endReason_limit_precedence (c : MessageCollector) :
    (MessageCollector.endReason c = some "limit" ↔
      truthyNat c.options.max = true ∧ c.options.max.getD 0 ≤ c.collected.length)
    ∧ (MessageCollector.endReason c = some "processedLimit" ↔
      ¬(truthyNat c.options.max = true ∧ c.options.max.getD 0 ≤ c.collected.length)
      ∧ truthyNat c.options.maxProcessed = true
      ∧ c.received = c.options.maxProcessed.getD 0)
    ∧ (MessageCollector.endReason c = none ↔
      ¬(truthyNat c.options.max = true ∧ c.options.max.getD 0 ≤ c.collected.length)
      ∧ ¬(truthyNat c.options.maxProcessed = true
          ∧ c.received = c.options.maxProcessed.getD 0))
    ∧ MessageCollector.endReason precedenceState = some "limit" := by
  refine ⟨?_, ?_, ?_, by decide⟩ <;>
    · unfold MessageCollector.endReason
      split_ifs with h1 h2 <;> simp_all

/-- C2: the processed-count test is strict equality: whenever a truthy
`maxProcessed` option is set, "processedLimit" is returned only when
`received = maxProcessed` (and, absent the count-limit condition, exactly
then); in particular a `received` counter strictly beyond `maxProcessed`
never yields "processedLimit". -/
theorem endReason_strict_equality (c : MessageCollector)
    (h : truthyNat c.options.maxProcessed = true) :
    (MessageCollector.endReason c = some "processedLimit" →
      c.received = c.options.maxProcessed.getD 0)
    ∧ (c.options.maxProcessed.getD 0 < c.received →
      MessageCollector.endReason c ≠ some "processedLimit")
    ∧ (¬(truthyNat c.options.max = true ∧ c.options.max.getD 0 ≤ c.collected.length) →
      c.received = c.options.maxProcessed.getD 0 →
      MessageCollector.endReason c = some "processedLimit") := by
  unfold MessageCollector.endReason
  split_ifs with h1 h2 <;>
    refine ⟨?_, ?_, ?_⟩ <;> simp_all

/-- C2 witness: `skippedState` has `maxProcessed = 3` set and
`received = 5 > 3`; the getter does not return "processedLimit". -/
theorem endReason_strict_equality_witness :
    truthyNat skippedState.options.maxProcessed = true
    ∧ MessageCollector.endReason skippedState ≠ some "processedLimit" :=
  ⟨by decide,
    (endReason_strict_equality skippedState (by decide)).2.1 (by decide)⟩

/-- C9: a limit option explicitly set to 0 is falsy and therefore never
fires: `max = 0` never yields "limit" even though `collected.size ≥ 0`,
`maxProcessed = 0` never yields "processedLimit" even when `received = 0`,
and with both options absent or zero the getter is null in every state. -/
theorem endReason_zero_options (c : MessageCollector) :
    (c.options.max = some 0 → MessageCollector.endReason c ≠ some "limit")
    ∧ (c.options.maxProcessed = some 0 →
      MessageCollector.endReason c ≠ some "processedLimit")
    ∧ ((c.options.max = some 0 ∨ c.options.max = none) →
      (c.options.maxProcessed = some 0 ∨ c.options.maxProcessed = none) →
      MessageCollector.endReason c = none) := by
  unfold MessageCollector.endReason
  refine ⟨?_, ?_, ?_⟩
  · intro hmax
    split_ifs with h1 h2 <;> simp_all [truthyNat]
  · intro hproc
    split_ifs with h1 h2 <;> simp_all [truthyNat]
  · intro hmax hproc
    rcases hmax with hm | hm <;> rcases hproc with hp | hp <;>
      split_ifs with h1 h2 <;> simp_all [truthyNat]

/-- C9 witness: with `max = 0`, `maxProcessed = 0`, empty `collected`
(so `collected.size ≥ 0`) and `received = 0`, the getter is null. -/
theorem endReason_zero_options_witness :
    zeroOptionsState.options.max = some 0
    ∧ zeroOptionsState.options.maxProcessed = some 0
    ∧ zeroOptionsState.received = 0
    ∧ MessageCollector.endReason zeroOptionsState = none :=
  ⟨by decide, by decide, by decide,
    (endReason_zero_options zeroOptionsState).2.2 (Or.inl (by decide))
      (Or.inl (by decide))⟩

/-! ## C3, C4, C5: collect, dispose, cascading termination -/

/-- A message sent in the target channel `chanC`. -/
def msgIn : Message := { id := 5, channelId := 10 }

/-- A message sent in a foreign channel. -/
def msgOut : Message := { id := 6, channelId := 99 }

/-- A running collector on `chanC` holding messages 5 and 7. -/
def runningState : MessageCollector :=
  { channel := chanC
    options := {}
    received := 2
    collected := [5, 7]
    ended := false
    endReasonStored := none }

/-- C3: `collect` returns the identity of the message and increments
`received` by exactly one when the channel of the message is the target
channel, and all other state components are untouched; on a foreign
channel it returns null and leaves the whole state (in particular
`received` and `collected`) unchanged. -/
theorem collect_channel_scoped (c : MessageCollector) (m : Message) :
    (m.channelId = c.channel.id →
      (c.collect m).1 = some m.id
      ∧ (c.collect m).2.received = c.received + 1
      ∧ (c.collect m).2.collected = c.collected
      ∧ (c.collect m).2.channel = c.channel
      ∧ (c.collect m).2.options = c.options
      ∧ (c.collect m).2.ended = c.ended
      ∧ (c.collect m).2.endReasonStored = c.endReasonStored)
    ∧ (m.channelId ≠ c.channel.id → c.collect m = (none, c)) := by
  unfold MessageCollector.collect
  constructor
  · intro h
    simp [h]
  · intro h
    simp [h]

/-- C3 witness: collecting `msgIn` (channel 10) on the collector bound to
channel 10 returns identity 5 and bumps `received` from 2 to 3; collecting
`msgOut` (channel 99) returns null and leaves the state unchanged. -/
theorem collect_channel_scoped_witness :
    ((runningState.collect msgIn).1 = some 5
      ∧ (runningState.collect msgIn).2.received = 3)
    ∧ runningState.collect msgOut = (none, runningState) :=
  ⟨⟨((collect_channel_scoped runningState msgIn).1 (by decide)).1,
      ((collect_channel_scoped runningState msgIn).1 (by decide)).2.1⟩,
    (collect_channel_scoped runningState msgOut).2 (by decide)⟩

/-- C4: `dispose` returns the identity of the message exactly when the
message belongs to the target channel and null otherwise, and it is free
of side effects: a `handleDispose` step never changes `received`, never
changes `ended` and never records a terminal reason. -/
theorem dispose_pure_channel_scoped (c : MessageCollector) (m : Message) :
    (c.dispose m = some m.id ↔ m.channelId = c.channel.id)
    ∧ (m.channelId ≠ c.channel.id → c.dispose m = none)
    ∧ (c.handleDispose m).received = c.received
    ∧ (c.handleDispose m).ended = c.ended
    ∧ (c.handleDispose m).endReasonStored = c.endReasonStored := by
  unfold MessageCollector.handleDispose MessageCollector.dispose
  by_cases hm : m.channelId = c.channel.id <;>
    by_cases he : c.ended <;>
      simp [hm, he] <;>
        split_ifs <;> simp_all

/-- C4 witness: disposing `msgIn` on the running collector returns its
identity 5, disposing `msgOut` returns null, and the `handleDispose` step
for `msgIn` leaves `received`, `ended` and the recorded reason unchanged. -/
theorem dispose_pure_channel_scoped_witness :
    (runningState.dispose msgIn = some 5)
    ∧ (runningState.dispose msgOut = none)
    ∧ (runningState.handleDispose msgIn).received = runningState.received
    ∧ (runningState.handleDispose msgIn).endReasonStored = none :=
  ⟨(dispose_pure_channel_scoped runningState msgIn).1.mpr (by decide),
    (dispose_pure_channel_scoped runningState msgOut).2.1 (by decide),
    (dispose_pure_channel_scoped runningState msgIn).2.2.1,
    (dispose_pure_channel_scoped runningState msgIn).2.2.2.2⟩

/-- C5: a channel-deleted event stops the collector with reason
"channelDelete" exactly when the deleted channel is the target channel,
and a guild-deleted event stops it with reason "guildDelete" exactly when
the deleted guild is the parent guild of the target channel; for a channel
with no parent guild the guild test never matches, and any non-matching
deletion leaves the collector state unchanged (still running). -/
theorem cascade_termination (c : MessageCollector) (ch : Channel) (g : Guild) :
    (ch.id = c.channel.id → c.handleChannelDeletion ch = c.stop "channelDelete")
    ∧ (ch.id ≠ c.channel.id → c.handleChannelDeletion ch = c)
    ∧ (c.channel.guildId = some g.id → c.handleGuildDeletion g = c.stop "guildDelete")
    ∧ (c.channel.guildId ≠ some g.id → c.handleGuildDeletion g = c)
    ∧ (c.channel.guildId = none → c.handleGuildDeletion g = c) := by
  unfold MessageCollector.handleChannelDeletion MessageCollector.handleGuildDeletion
  refine ⟨fun h => ?_, fun h => ?_, fun h => ?_, fun h => ?_, fun h => ?_⟩ <;>
    simp [h]

/-- C5 witness: on the collector bound to channel 10 in guild 100,
deleting channel 10 records "channelDelete", deleting guild 100 records
"guildDelete", and deleting foreign channel 99 or foreign guild 200
leaves the collector unchanged and running. -/
theorem cascade_termination_witness :
    (runningState.handleChannelDeletion { id := 10, guildId := some 100 }
      = runningState.stop "channelDelete")
    ∧ (runningState.handleChannelDeletion { id := 99, guildId := some 100 }
      = runningState)
    ∧ (runningState.handleGuildDeletion { id := 100 }
      = runningState.stop "guildDelete")
    ∧ (runningState.handleGuildDeletion { id := 200 } = runningState) :=
  ⟨(cascade_termination runningState { id := 10, guildId := some 100 } { id := 100 }).1
      (by decide),
    (cascade_termination runningState { id := 99, guildId := some 100 } { id := 100 }).2.1
      (by decide),
    (cascade_termination runningState { id := 10, guildId := some 100 } { id := 100 }).2.2.1
      (by decide),
    (cascade_termination runningState { id := 10, guildId := some 100 } { id := 200 }).2.2.2.1
      (by decide)⟩

/-! ## Helper lemmas: the state is frozen once `ended` holds -/

theorem stop_ended (c : MessageCollector) (r : String) (h : c.ended = true) :
    c.stop r = c := by
  unfold MessageCollector.stop
  simp [h]

theorem handleDispose_ended (c : MessageCollector) (m : Message) (h : c.ended = true) :
    c.handleDispose m = c := by
  unfold MessageCollector.handleDispose
  simp [h]

theorem handleCollect_ended (c : MessageCollector) (m : Message) (h : c.ended = true) :
    c.handleCollect m = c := by
  unfold MessageCollector.handleCollect MessageCollector.collect
  by_cases hm : m.channelId = c.channel.id <;> simp [hm, h]

theorem bulkDeleteListener_ended (c : MessageCollector) (msgs : List Message)
    (h : c.ended = true) : c.bulkDeleteListener msgs = c := by
  induction msgs with
  | nil => rfl
  | cons m ms ih =>
    unfold MessageCollector.bulkDeleteListener at ih ⊢
    rw [List.foldl_cons, handleDispose_ended c m h]
    exact ih

/-! ## C8: idempotent termination, state frozen afterwards -/

/-- C8: on a running collector, `stop r1` flips `ended` to true and records
`r1`; a second `stop r2` is a no-op (the reason stays `r1`); `stop` itself
does not change `collected` or `received`; and after the transition no
pipeline operation (collect, dispose, bulk delete, channel or guild
deletion) mutates the state. -/
theorem stop_idempotent_frozen (c : MessageCollector) (r1 r2 : String) (m : Message)
    (msgs : List Message) (ch : Channel) (g : Guild) (h : c.ended = false) :
    (c.stop r1).ended = true
    ∧ (c.stop r1).endReasonStored = some r1
    ∧ (c.stop r1).stop r2 = c.stop r1
    ∧ (c.stop r1).collected = c.collected
    ∧ (c.stop r1).received = c.received
    ∧ (c.stop r1).handleCollect m = c.stop r1
    ∧ (c.stop r1).handleDispose m = c.stop r1
    ∧ (c.stop r1).bulkDeleteListener msgs = c.stop r1
    ∧ (c.stop r1).handleChannelDeletion ch = c.stop r1
    ∧ (c.stop r1).handleGuildDeletion g = c.stop r1 := by
  have hstop : c.stop r1 = { c with ended := true, endReasonStored := some r1 } := by
    unfold MessageCollector.stop
    simp [h]
  have hended : (c.stop r1).ended = true := by rw [hstop]
  refine ⟨hended, by rw [hstop], stop_ended _ r2 hended, by rw [hstop], by rw [hstop],
    handleCollect_ended _ m hended, handleDispose_ended _ m hended,
    bulkDeleteListener_ended _ msgs hended, ?_, ?_⟩
  · unfold MessageCollector.handleChannelDeletion
    split_ifs with hc
    · exact stop_ended _ _ hended
    · rfl
  · unfold MessageCollector.handleGuildDeletion
    split_ifs with hg
    · exact stop_ended _ _ hended
    · rfl

/-- C8 witness: on the running collector, `stop "a"` then `stop "b"`
leaves the recorded reason "a" (the second call is a no-op), and a
subsequent collect attempt on the ended collector changes nothing. -/
theorem stop_idempotent_frozen_witness :
    runningState.ended = false
    ∧ (runningState.stop "a").stop "b" = runningState.stop "a"
    ∧ ((runningState.stop "a").stop "b").endReasonStored = some "a"
    ∧ (runningState.stop "a").handleCollect msgIn = runningState.stop "a" := by
  have T := stop_idempotent_frozen runningState "a" "b" msgIn [] chanC { id := 200 }
    (by decide)
  exact ⟨by decide, T.2.2.1, by rw [T.2.2.1]; exact T.2.1, T.2.2.2.2.2.1⟩

/-! ## Helper lemmas for bulk disposal -/

theorem handleDispose_frame (c : MessageCollector) (m : Message) :
    (c.handleDispose m).channel = c.channel
    ∧ (c.handleDispose m).options = c.options
    ∧ (c.handleDispose m).received = c.received
    ∧ (c.handleDispose m).ended = c.ended
    ∧ (c.handleDispose m).endReasonStored = c.endReasonStored := by
  unfold MessageCollector.handleDispose MessageCollector.dispose
  by_cases hm : m.channelId = c.channel.id <;>
    by_cases he : c.ended <;>
      simp [hm, he] <;>
        split_ifs <;> simp_all

theorem handleDispose_collected (c : MessageCollector) (m : Message) (h : c.ended = false) :
    (c.handleDispose m).collected =
      c.collected.filter
        (fun i => !(decide (m.channelId = c.channel.id) && decide (m.id = i))) := by
  unfold MessageCollector.handleDispose MessageCollector.dispose
  by_cases hm : m.channelId = c.channel.id
  · simp [h, hm]
    split_ifs with hmem
    · refine List.filter_congr fun a ha => ?_
      by_cases hae : a = m.id
      · subst hae
        simp
      · simp [hae, Ne.symm hae]
    · refine (List.filter_eq_self.mpr fun a ha => ?_).symm
      have hne : m.id ≠ a := fun e => hmem (e ▸ ha)
      simp [hne]
  · simp [h, hm]

theorem bulkDeleteListener_frame (msgs : List Message) (c : MessageCollector) :
    (c.bulkDeleteListener msgs).channel = c.channel
    ∧ (c.bulkDeleteListener msgs).options = c.options
    ∧ (c.bulkDeleteListener msgs).received = c.received
    ∧ (c.bulkDeleteListener msgs).ended = c.ended
    ∧ (c.bulkDeleteListener msgs).endReasonStored = c.endReasonStored := by
  induction msgs generalizing c with
  | nil => exact ⟨rfl, rfl, rfl, rfl, rfl⟩
  | cons m ms ih =>
    have hd := handleDispose_frame c m
    have hi := ih (c.handleDispose m)
    exact ⟨hi.1.trans hd.1, hi.2.1.trans hd.2.1, hi.2.2.1.trans hd.2.2.1,
      hi.2.2.2.1.trans hd.2.2.2.1, hi.2.2.2.2.trans hd.2.2.2.2⟩

theorem bulkDeleteListener_collected (msgs : List Message) (c : MessageCollector)
    (h : c.ended = false) :
    (c.bulkDeleteListener msgs).collected =
      c.collected.filter (fun i =>
        !(msgs.any (fun m => decide (m.channelId = c.channel.id) && decide (m.id = i)))) := by
  induction msgs generalizing c with
  | nil => simp [MessageCollector.bulkDeleteListener]
  | cons m ms ih =>
    have hd := handleDispose_frame c m
    have hde : (c.handleDispose m).ended = false := hd.2.2.2.1.trans h
    have step : c.bulkDeleteListener (m :: ms) = (c.handleDispose m).bulkDeleteListener ms :=
      rfl
    rw [step, ih _ hde, hd.1, handleDispose_collected c m h, List.filter_filter]
    refine List.filter_congr fun a ha => ?_
    simp [Bool.not_or, Bool.and_comm]

/-! ## C6: bulk-removal expands to independent channel-scoped disposals -/

/-- C6: a bulk-removal event is one `handleDispose` per contained message
(this is the definition of `bulkDeleteListener`); on a running collector
exactly the identities of contained messages belonging to the target
channel are removed from `collected`, every other entry staying untouched,
and `received`, the `ended` flag and the recorded reason are unchanged. -/
theorem bulk_dispose_filter (c : MessageCollector) (msgs : List Message)
    (h : c.ended = false) :
    (c.bulkDeleteListener msgs).collected =
      c.collected.filter (fun i =>
        !(msgs.any (fun m => decide (m.channelId = c.channel.id) && decide (m.id = i))))
    ∧ (c.bulkDeleteListener msgs).received = c.received
    ∧ (c.bulkDeleteListener msgs).ended = false
    ∧ (c.bulkDeleteListener msgs).endReasonStored = c.endReasonStored :=
  ⟨bulkDeleteListener_collected msgs c h,
    (bulkDeleteListener_frame msgs c).2.2.1,
    (bulkDeleteListener_frame msgs c).2.2.2.1.trans h,
    (bulkDeleteListener_frame msgs c).2.2.2.2⟩

/-- A running collector on channel 10 holding messages 1, 2, 3 and 9. -/
def bulkState : MessageCollector :=
  { channel := chanC
    options := {}
    received := 4
    collected := [1, 2, 3, 9]
    ended := false
    endReasonStored := none }

/-- The bulk event of the spec example: 5 messages, 3 of them (ids 1, 2, 3)
in channel 10; the other two (ids 9 and 4) in foreign channel 99 — id 9 is
collected, but its removal event is for the wrong channel. -/
def bulkMsgs : List Message :=
  [{ id := 1, channelId := 10 }, { id := 2, channelId := 10 }, { id := 3, channelId := 10 },
    { id := 9, channelId := 99 }, { id := 4, channelId := 99 }]

/-- C6 witness: the bulk event removes exactly ids 1, 2 and 3 from
`collected`, leaving 9 (whose removal was foreign-channel) untouched, with
`received` still 4. -/
theorem bulk_dispose_filter_witness :
    (bulkState.bulkDeleteListener bulkMsgs).collected = [9]
    ∧ (bulkState.bulkDeleteListener bulkMsgs).received = 4 := by
  have T := bulk_dispose_filter bulkState bulkMsgs (by decide)
  refine ⟨?_, T.2.1⟩
  rw [T.1]
  decide

/-! ## C7: listener lifecycle -/

/-- C7: on a client holding no listener of this instance, construction
registers exactly five listeners of the instance and increments the
max-listener budget by one, and the one-shot end handler removes all five
and undoes the increment, restoring the client exactly — in particular
zero listeners of the instance remain registered after termination. -/
theorem listener_lifecycle (cs : ClientState) (inst : Nat)
    (h : ∀ l ∈ cs.listeners, l.instanceId ≠ inst) :
    (cs.registerListeners inst).listeners.countP (fun l => l.instanceId = inst) = 5
    ∧ (cs.registerListeners inst).maxListeners = cs.maxListeners + 1
    ∧ (cs.registerListeners inst).teardownListeners inst = cs
    ∧ ((cs.registerListeners inst).teardownListeners inst).listeners.countP
        (fun l => l.instanceId = inst) = 0 := by
  have h0 : cs.listeners.countP (fun l => decide (l.instanceId = inst)) = 0 :=
    List.countP_eq_zero.mpr (by simpa using h)
  have hni : ∀ ev : EventName, (⟨inst, ev⟩ : Listener) ∉ cs.listeners :=
    fun ev hm => h _ hm rfl
  have hreg : (cs.registerListeners inst).listeners
      = cs.listeners ++ [⟨inst, .messageCreate⟩, ⟨inst, .messageDelete⟩,
          ⟨inst, .messageBulkDelete⟩, ⟨inst, .channelDelete⟩, ⟨inst, .guildDelete⟩] := by
    simp [ClientState.registerListeners, ClientState.addListener,
      ClientState.incrementMaxListeners]
  have hmax : (cs.registerListeners inst).maxListeners = cs.maxListeners + 1 := rfl
  have htear : (cs.registerListeners inst).teardownListeners inst = cs := by
    simp only [ClientState.teardownListeners, ClientState.removeListener,
      ClientState.decrementMaxListeners, hreg, hmax]
    rw [List.erase_append_right _ (hni .messageCreate), List.erase_cons_head]
    rw [List.erase_append_right _ (hni .messageDelete), List.erase_cons_head]
    rw [List.erase_append_right _ (hni .messageBulkDelete), List.erase_cons_head]
    rw [List.erase_append_right _ (hni .channelDelete), List.erase_cons_head]
    rw [List.erase_append_right _ (hni .guildDelete), List.erase_cons_head]
    cases cs
    simp
  refine ⟨?_, hmax, htear, ?_⟩
  · rw [hreg, List.countP_append]
    simp [h0, List.countP_cons]
  · rw [htear]
    exact h0

/-- A client with an empty listener registry and budget 0. -/
def freshClient : ClientState := { listeners := [], maxListeners := 0 }

/-- C7 witness: constructing instance 7 on a fresh client registers
exactly five of its listeners, and the end handler restores the fresh
client exactly (so zero listeners of the instance remain). -/
theorem listener_lifecycle_witness :
    (freshClient.registerListeners 7).listeners.countP (fun l => l.instanceId = 7) = 5
    ∧ (freshClient.registerListeners 7).maxListeners = 1
    ∧ (freshClient.registerListeners 7).teardownListeners 7 = freshClient := by
  have T := listener_lifecycle freshClient 7 (by simp [freshClient])
  exact ⟨T.1, T.2.1, T.2.2.1⟩

/-! ## C10: RoleManager.fetch resolves on a missing role -/

/-- C10: with an id and `force = false`, `fetch` returns the cached role
without performing the API request when the id is cached; when the request
is performed and the id is absent from the fetched result set, it resolves
to null (`FetchResult.one none`) instead of raising; and with no id it
resolves to the full fetched collection. -/
theorem roleManager_fetch_resolves (cache : List (Snowflake × Role)) (api : List Role)
    (i : Snowflake) (r : Role) (force : Bool) :
    (RoleManager.lookup cache i = some r →
      RoleManager.fetch cache api (some i) false = (FetchResult.one (some r), false))
    ∧ ((force = true ∨ RoleManager.lookup cache i = none) →
      RoleManager.lookup (RoleManager.rolesOf api) i = none →
      RoleManager.fetch cache api (some i) force = (FetchResult.one none, true))
    ∧ RoleManager.fetch cache api none force
      = (FetchResult.all (RoleManager.rolesOf api), true) := by
  unfold RoleManager.fetch
  refine ⟨fun hc => ?_, fun hf habs => ?_, rfl⟩
  · simp [hc]
  · rcases hf with hf | hf
    · simp [hf, habs]
    · cases force <;> simp [hf, habs]

/-- A concrete role cache: role 3 cached. -/
def cachedRoles : List (Snowflake × Role) := [(3, { id := 3 })]

/-- A concrete API payload: roles 1 and 2 (role 3 and role 9 absent). -/
def apiRoles : List Role := [{ id := 1 }, { id := 2 }]

/-- C10 witness: fetching cached id 3 non-forced returns the cached role
with no API request; fetching id 9 (absent from cache and from the fetched
payload) resolves to null; fetching with no id returns the full fetched
collection. -/
theorem roleManager_fetch_resolves_witness :
    RoleManager.fetch cachedRoles apiRoles (some 3) false
      = (FetchResult.one (some { id := 3 }), false)
    ∧ RoleManager.fetch cachedRoles apiRoles (some 9) false = (FetchResult.one none, true)
    ∧ RoleManager.fetch cachedRoles apiRoles none false
      = (FetchResult.all [(1, { id := 1 }), (2, { id := 2 })], true) := by
  refine ⟨(roleManager_fetch_resolves cachedRoles apiRoles 3 { id := 3 } false).1 (by decide),
    (roleManager_fetch_resolves cachedRoles apiRoles 9 { id := 9 } false).2.1
      (Or.inr (by decide)) (by decide), ?_⟩
  have T := (roleManager_fetch_resolves cachedRoles apiRoles 1 { id := 1 } false).2.2
  rw [T]
  decide

end DiscordJS
